import Mathlib

/-!
A shallow embedding of the DemoApp backend (`backend/main.py`): a FastAPI
service over a SQLite store with three append-only tables (users, messages,
documents), a JWT token service, and route handlers for signup, login, chat,
message listing, document upload, document listing and substring search.

The SQLite store is modelled as lists of rows in insertion (rowid) order;
`INTEGER PRIMARY KEY` auto-assignment is modelled by per-table counters
starting at 1 (equivalent to SQLite's max-rowid+1 rule on an append-only
table).  Each call to Python's `datetime.now()` / `datetime.utcnow()` is an
external input, modelled as an explicit `now : Nat` parameter (seconds).
Python `str` is Lean `String` (a list of characters, matching Python's
code-point indexing and slicing).
-/

namespace DemoApp

/-- A row of the `users` table:
`(id INTEGER PRIMARY KEY, email TEXT UNIQUE, name TEXT, password TEXT, created_at TIMESTAMP)`. -/
structure UserRow where
  id : Nat
  email : String
  name : String
  password : String
  created_at : Nat
deriving DecidableEq, Repr

/-- A row of the `messages` table:
`(id INTEGER PRIMARY KEY, user_id INTEGER, message TEXT, response TEXT, created_at TIMESTAMP)`. -/
structure MessageRow where
  id : Nat
  user_id : Int
  message : String
  response : String
  created_at : Nat
deriving DecidableEq, Repr

/-- A row of the `documents` table:
`(id INTEGER PRIMARY KEY, user_id INTEGER, filename TEXT, content TEXT, created_at TIMESTAMP)`. -/
structure DocumentRow where
  id : Nat
  user_id : Int
  filename : String
  content : String
  created_at : Nat
deriving DecidableEq, Repr

/-- The SQLite database `demoapp.db`: three tables in rowid order plus the
next auto-assigned primary key of each. -/
structure DB where
  users : List UserRow
  messages : List MessageRow
  documents : List DocumentRow
  nextUserId : Nat
  nextMessageId : Nat
  nextDocumentId : Nat
deriving DecidableEq, Repr

/-- The empty store created by `init_db` (all three tables empty). -/
def initDB : DB := ⟨[], [], [], 1, 1, 1⟩

/-! ### SQLite `LIKE` semantics

`content LIKE ?` with pattern `f"%{query}%"`.  SQLite's default `LIKE` is
case-insensitive for the 26 ASCII letters only, `%` matches any sequence of
zero or more characters and `_` matches any single character (no escape
character is configured in the source). -/

/-- SQLite's ASCII-only case folding used by the default `LIKE`. -/
def sqliteLower (c : Char) : Char :=
  if 'A' ≤ c ∧ c ≤ 'Z' then Char.ofNat (c.toNat + 32) else c

/-- Character-list matcher for SQLite `LIKE` (default, no ESCAPE):
`%` matches zero or more characters, `_` matches exactly one, all other
characters compare ASCII-case-insensitively. -/
def likeAux : List Char → List Char → Bool
  | [], s => s.isEmpty
  | '%' :: ps, s => s.tails.any (fun t => likeAux ps t)
  | '_' :: _, [] => false
  | '_' :: ps, _ :: s => likeAux ps s
  | _ :: _, [] => false
  | p :: ps, c :: s => (sqliteLower p == sqliteLower c) && likeAux ps s

/-- `text LIKE pat` under SQLite's default semantics. -/
def sqliteLike (pat text : String) : Bool :=
  likeAux pat.data text.data

/-! ### Spec-side notion for claim C1

The specification describes search as a *case-sensitive substring* match.
This definition follows the spec's words (not the source) so that it can be
compared with the source's `LIKE` behaviour. -/

/-- Spec's words: `q` occurs as a contiguous substring of `s`
(case-sensitively).  Used only to compare the spec's description of search
with the source's SQLite `LIKE` behaviour. -/
def specSubstring (q s : String) : Bool :=
  decide (q.data <:+: s.data)

/-! ### Token service (`create_token` / `verify_token`)

`jwt.encode(payload, secret, "HS256")` / `jwt.decode(token, secret, ["HS256"])`
from PyJWT.  The HMAC-SHA256 signature is idealized as the injective pairing
of the secret with the signed payload (a perfectly binding MAC), which is the
standard symbolic model of a MAC; expiry checking follows PyJWT: a token is
rejected when `exp ≤ now`. -/

/-- The JWT claim set produced by `create_token`:
`{"email": ..., "user_id": ..., "exp": now + 7 days}`. -/
structure TokenPayload where
  email : String
  user_id : Nat
  exp : Nat
deriving DecidableEq, Repr

/-- Idealized HMAC-SHA256: the signature binds the secret and the payload
exactly (symbolic MAC model). -/
def hmacSign (secret : String) (p : TokenPayload) : String × TokenPayload :=
  (secret, p)

/-- A serialized JWT: payload plus signature. -/
structure Token where
  payload : TokenPayload
  sig : String × TokenPayload
deriving DecidableEq, Repr

/-- `timedelta(days=7)` in seconds. -/
def sevenDays : Nat := 7 * 24 * 60 * 60

/-- `HTTPException(status_code, detail)`. -/
structure HttpError where
  code : Nat
  detail : String
deriving DecidableEq, Repr

/-- `create_token(email, user_id)`: sign `{email, user_id, exp = now + 7 days}`
with the configured secret. -/
def create_token (secret email : String) (user_id now : Nat) : Token :=
  ⟨⟨email, user_id, now + sevenDays⟩, hmacSign secret ⟨email, user_id, now + sevenDays⟩⟩

/-- `verify_token(token)`: decode checking signature and expiry; any failure
is collapsed to `HTTPException(401, "Invalid token")`. -/
def verify_token (secret : String) (now : Nat) (t : Token) : Except HttpError TokenPayload :=
  if t.sig = hmacSign secret t.payload ∧ now < t.payload.exp then .ok t.payload
  else .error ⟨401, "Invalid token"⟩

/-- `JWT_SECRET = os.getenv("JWT_SECRET", "your-secret-key-change-in-production")`,
taken at its default. -/
def JWT_SECRET : String := "your-secret-key-change-in-production"

/-! ### Request and response shapes (pydantic models and JSON bodies) -/

/-- Pydantic `SignupRequest`. -/
structure SignupRequest where
  name : String
  email : String
  password : String
deriving DecidableEq, Repr

/-- Pydantic `LoginRequest`. -/
structure LoginRequest where
  email : String
  password : String
deriving DecidableEq, Repr

/-- Pydantic `ChatMessage`. -/
structure ChatMessage where
  message : String
  user_id : Int
deriving DecidableEq, Repr

/-- The `user` object echoed by signup and login. -/
structure UserEcho where
  id : Nat
  email : String
  name : String
deriving DecidableEq, Repr

/-- Success body of `/api/auth/signup` and `/api/auth/login`. -/
structure AuthSuccess where
  access_token : Token
  token_type : String
  user : UserEcho
deriving DecidableEq, Repr

/-- Success body of `/api/chat`. -/
structure ChatResponse where
  message : String
  response : String
  timestamp : Nat
deriving DecidableEq, Repr

/-- One element of the `messages` list of `GET /api/messages/{user_id}`. -/
structure MessageView where
  message : String
  response : String
  created_at : Nat
deriving DecidableEq, Repr

/-- Success body of `/api/documents/upload`. -/
structure UploadResponse where
  status : String
  filename : String
deriving DecidableEq, Repr

/-- One element of the `documents` list of `GET /api/documents/{user_id}`:
only `id`, `filename` and `created_at` are selected (content omitted). -/
structure DocView where
  id : Nat
  filename : String
  created_at : Nat
deriving DecidableEq, Repr

/-- One element of the `results` list of `POST /api/search`. -/
structure SearchResult where
  filename : String
  excerpt : String
deriving DecidableEq, Repr

/-- Body of `POST /api/search`. -/
structure SearchResponse where
  query : String
  results : List SearchResult
deriving DecidableEq, Repr

/-! ### Route handlers -/

/-- `POST /api/auth/signup`: `INSERT INTO users ...` (the UNIQUE constraint on
`email` raises `IntegrityError`, mapped to 400, when the email is already
present — the statement fails, so the store is unchanged); on success the
insert is committed, the assigned id is read back by
`SELECT id FROM users WHERE email = ?` (first row in rowid order), and a
token is issued. -/
def signup (r : SignupRequest) (now : Nat) (db : DB) :
    Except HttpError AuthSuccess × DB :=
  if db.users.any (fun u => decide (u.email = r.email)) then
    (.error ⟨400, "Email already exists"⟩, db)
  else
    let row : UserRow := ⟨db.nextUserId, r.email, r.name, r.password, now⟩
    let db' : DB := { db with users := db.users ++ [row], nextUserId := db.nextUserId + 1 }
    match db'.users.find? (fun u => decide (u.email = r.email)) with
    | some u =>
      (.ok ⟨create_token JWT_SECRET r.email u.id now, "bearer", ⟨u.id, r.email, r.name⟩⟩, db')
    | none => (.error ⟨500, "internal error"⟩, db')

/-- `POST /api/auth/login`: `SELECT id, name, password FROM users WHERE email = ?`,
`fetchone` (first row in rowid order); 401 when no row or when the stored
password differs from the request password by exact string comparison. -/
def login (r : LoginRequest) (now : Nat) (db : DB) : Except HttpError AuthSuccess :=
  match db.users.find? (fun u => decide (u.email = r.email)) with
  | none => .error ⟨401, "Invalid email or password"⟩
  | some u =>
    if u.password ≠ r.password then .error ⟨401, "Invalid email or password"⟩
    else .ok ⟨create_token JWT_SECRET r.email u.id now, "bearer", ⟨u.id, r.email, u.name⟩⟩

/-- `POST /api/chat`: synthesize `f"Response to: {message.message}"`, insert
the message row (`created_at = datetime.now()` of the insert), and echo the
message with a second `datetime.now()` as response timestamp. -/
def chat (m : ChatMessage) (now nowResp : Nat) (db : DB) : ChatResponse × DB :=
  let response_text := "Response to: " ++ m.message
  let row : MessageRow := ⟨db.nextMessageId, m.user_id, m.message, response_text, now⟩
  (⟨m.message, response_text, nowResp⟩,
   { db with messages := db.messages ++ [row], nextMessageId := db.nextMessageId + 1 })

/-- Insert a message row in front of the first row whose `created_at` is not
larger — one step of producing `ORDER BY created_at DESC` output. -/
def insertDesc (x : MessageRow) : List MessageRow → List MessageRow
  | [] => [x]
  | y :: ys => if y.created_at ≤ x.created_at then x :: y :: ys else y :: insertDesc x ys

/-- Sort message rows by `created_at` descending (`ORDER BY created_at DESC`). -/
def sortDesc : List MessageRow → List MessageRow
  | [] => []
  | x :: xs => insertDesc x (sortDesc xs)

/-- `GET /api/messages/{user_id}`:
`SELECT message, response, created_at FROM messages WHERE user_id = ? ORDER BY created_at DESC`. -/
def get_messages (uid : Int) (db : DB) : List MessageView :=
  (sortDesc (db.messages.filter (fun m => decide (m.user_id = uid)))).map
    (fun m => ⟨m.message, m.response, m.created_at⟩)

/-- `POST /api/documents/upload`: `INSERT INTO documents ...`. -/
def upload_document (uid : Int) (filename content : String) (now : Nat) (db : DB) :
    UploadResponse × DB :=
  let row : DocumentRow := ⟨db.nextDocumentId, uid, filename, content, now⟩
  (⟨"success", filename⟩,
   { db with documents := db.documents ++ [row], nextDocumentId := db.nextDocumentId + 1 })

/-- `GET /api/documents/{user_id}`:
`SELECT id, filename, created_at FROM documents WHERE user_id = ?`. -/
def get_documents (uid : Int) (db : DB) : List DocView :=
  (db.documents.filter (fun d => decide (d.user_id = uid))).map
    (fun d => ⟨d.id, d.filename, d.created_at⟩)

/-- `r[1][:200] if len(r[1]) > 200 else r[1]`: the excerpt of a document's
content in search results. -/
def excerptOf (c : String) : String :=
  if c.length > 200 then ⟨c.data.take 200⟩ else c

/-- `POST /api/search`:
`SELECT filename, content FROM documents WHERE user_id = ? AND content LIKE ?`
with pattern `f"%{query}%"`, each hit reported as filename plus excerpt. -/
def search (uid : Int) (query : String) (db : DB) : SearchResponse :=
  ⟨query,
   (db.documents.filter
      (fun d => decide (d.user_id = uid) && sqliteLike ("%" ++ query ++ "%") d.content)).map
     (fun d => ⟨d.filename, excerptOf d.content⟩)⟩

/-! ### The API as one step function

`Request` enumerates the routes with their declared parameters.  An
`HttpRequest` carries, besides the route, the transport-level
`Authorization` header a caller may send; no handler in the source reads it
(`verify_token` is defined but not wired into any route). -/

/-- A route of the API together with its declared parameters. -/
inductive Request where
  | root
  | health
  | signup (r : SignupRequest)
  | login (r : LoginRequest)
  | chat (m : ChatMessage)
  | getMessages (uid : Int)
  | uploadDoc (uid : Int) (filename content : String)
  | getDocs (uid : Int)
  | search (uid : Int) (query : String)
deriving DecidableEq, Repr

/-- An HTTP request: the caller's `Authorization` header (its claimed
identity token, if any) and the route with its parameters. -/
structure HttpRequest where
  auth : Option Token
  req : Request
deriving DecidableEq, Repr

/-- The body of an API response, one constructor per response shape. -/
inductive ApiResult where
  | root (message status : String)
  | health (status : String) (timestamp : Nat)
  | auth (a : AuthSuccess)
  | err (e : HttpError)
  | chat (c : ChatResponse)
  | messages (l : List MessageView)
  | upload (u : UploadResponse)
  | documents (l : List DocView)
  | found (s : SearchResponse)
deriving DecidableEq, Repr

/-- One request/response cycle of the service: dispatch on the route and run
its handler.  `now` is the value of the wall clock during the call. -/
def apiStep (h : HttpRequest) (now : Nat) (db : DB) : ApiResult × DB :=
  match h.req with
  | .root => (.root "DemoApp API is running" "ok", db)
  | .health => (.health "healthy" now, db)
  | .signup r =>
    match signup r now db with
    | (.ok a, db') => (.auth a, db')
    | (.error e, db') => (.err e, db')
  | .login r =>
    match login r now db with
    | .ok a => (.auth a, db)
    | .error e => (.err e, db)
  | .chat m =>
    let p := chat m now now db
    (.chat p.1, p.2)
  | .getMessages uid => (.messages (get_messages uid db), db)
  | .uploadDoc uid filename content =>
    let p := upload_document uid filename content now db
    (.upload p.1, p.2)
  | .getDocs uid => (.documents (get_documents uid db), db)
  | .search uid query => (.found (search uid query db), db)

/-! ### Sequences of chat calls (for the message-ordering claim) -/

/-- Run one `POST /api/chat` per element of `inputs`, in order: element
`(m, t)` is a chat call with body `{message := m, user_id := uid}` made at
wall-clock time `t`. -/
def chatSeq (uid : Int) (inputs : List (String × Nat)) (db : DB) : DB :=
  match inputs with
  | [] => db
  | (m, t) :: rest => chatSeq uid rest (chat ⟨m, uid⟩ t t db).2

/-- The message rows a sequence of chat calls appends: ids count up from
`nid`, timestamps and texts come from `inputs`. -/
def mkRows (uid : Int) (nid : Nat) : List (String × Nat) → List MessageRow
  | [] => []
  | (m, t) :: rest => ⟨nid, uid, m, "Response to: " ++ m, t⟩ :: mkRows uid (nid + 1) rest

/-- The view `GET /api/messages` produces for the chat input `(m, t)`. -/
def viewOfInput (p : String × Nat) : MessageView :=
  ⟨p.1, "Response to: " ++ p.1, p.2⟩

/-! ### Concrete fixtures used to instantiate the theorems -/

/-- A store whose single document (user 1) has lower-case content `"a"`. -/
def cexDB : DB := ⟨[], [], [⟨1, 1, "f.txt", "a", 0⟩], 1, 1, 2⟩

/-- The user row created by `signup("Alice", "alice@x.com", "p1")` at time 0. -/
def aliceRow : UserRow := ⟨1, "alice@x.com", "Alice", "p1", 0⟩

/-- A store holding exactly the user `aliceRow`. -/
def userDB : DB := ⟨[aliceRow], [], [], 2, 1, 1⟩

/-- A store with one document per user for users 1 and 2. -/
def docsDB : DB :=
  ⟨[], [], [⟨1, 1, "notes.txt", "hello world", 0⟩, ⟨2, 2, "other.txt", "hello", 0⟩], 1, 1, 3⟩

/-! ## Helper lemmas -/

/-- `signup` only ever appends to `users` and leaves the other tables alone. -/
theorem signup_tables (r : SignupRequest) (now : Nat) (db : DB) :
    db.users <+: (signup r now db).2.users ∧
    (signup r now db).2.messages = db.messages ∧
    (signup r now db).2.documents = db.documents := by
  unfold signup
  split
  · exact ⟨List.prefix_refl _, rfl, rfl⟩
  · dsimp only
    split <;> exact ⟨List.prefix_append _ _, rfl, rfl⟩

/-- The store after a `chat` call: the message row is appended. -/
theorem chat_state (m : ChatMessage) (now nowResp : Nat) (db : DB) :
    (chat m now nowResp db).2 =
      { db with
          messages := db.messages ++
            [⟨db.nextMessageId, m.user_id, m.message, "Response to: " ++ m.message, now⟩],
          nextMessageId := db.nextMessageId + 1 } := rfl

/-- Membership in a list found by `find?` under pairwise-distinct emails. -/
theorem find?_email_of_mem {l : List UserRow} {u : UserRow}
    (hu : u ∈ l) (huniq : l.Pairwise (fun a b => a.email ≠ b.email)) :
    l.find? (fun v => decide (v.email = u.email)) = some u := by
  induction l with
  | nil => cases hu
  | cons x xs ih =>
    obtain ⟨hx, hxs⟩ := List.pairwise_cons.mp huniq
    rcases List.mem_cons.mp hu with rfl | hmem
    · exact List.find?_cons_of_pos _ (by simp)
    · rw [List.find?_cons_of_neg _ (by simp [hx u hmem])]
      exact ih hmem hxs

/-- Inserting below every element of a list appends at its end. -/
theorem insertDesc_of_lt {x : MessageRow} {l : List MessageRow}
    (h : ∀ y ∈ l, x.created_at < y.created_at) : insertDesc x l = l ++ [x] := by
  induction l with
  | nil => rfl
  | cons y ys ih =>
    rw [insertDesc, if_neg (Nat.not_le.mpr (h y (List.mem_cons_self y ys))),
      ih (fun z hz => h z (List.mem_cons_of_mem y hz))]
    rfl

/-- Membership is preserved by `insertDesc`. -/
theorem mem_insertDesc {b x : MessageRow} {l : List MessageRow} :
    b ∈ insertDesc x l ↔ b = x ∨ b ∈ l := by
  induction l with
  | nil => simp [insertDesc]
  | cons y ys ih =>
    rw [insertDesc]
    split
    · simp [List.mem_cons]
      try tauto
    · simp [List.mem_cons, ih]
      try tauto

/-- Sorting a strictly `created_at`-ascending list descending reverses it. -/
theorem sortDesc_of_pairwise_lt {l : List MessageRow}
    (h : l.Pairwise (fun a b => a.created_at < b.created_at)) :
    sortDesc l = l.reverse := by
  induction l with
  | nil => rfl
  | cons x xs ih =>
    obtain ⟨hx, hxs⟩ := List.pairwise_cons.mp h
    rw [sortDesc, ih hxs, insertDesc_of_lt, List.reverse_cons]
    intro y hy
    have hmem : y ∈ xs := List.mem_reverse.mp hy
    exact hx y hmem

/-- The messages table after a sequence of chat calls: the rows of
`mkRows` are appended in order. -/
theorem chatSeq_messages (uid : Int) (inputs : List (String × Nat)) (db : DB) :
    (chatSeq uid inputs db).messages = db.messages ++ mkRows uid db.nextMessageId inputs := by
  induction inputs generalizing db with
  | nil => simp [chatSeq, mkRows]
  | cons p rest ih =>
    obtain ⟨m, t⟩ := p
    rw [chatSeq, ih, chat_state]
    simp [mkRows]

/-- Every row produced by `mkRows` carries the requesting `user_id`. -/
theorem filter_mkRows (uid : Int) (nid : Nat) (inputs : List (String × Nat)) :
    (mkRows uid nid inputs).filter (fun m => decide (m.user_id = uid)) =
      mkRows uid nid inputs := by
  induction inputs generalizing nid with
  | nil => rfl
  | cons p rest ih =>
    obtain ⟨m, t⟩ := p
    simp [mkRows, List.filter, ih]

/-- The timestamp of any `mkRows` row comes from its input. -/
theorem mem_mkRows {b : MessageRow} {uid : Int} {nid : Nat} {inputs : List (String × Nat)}
    (hb : b ∈ mkRows uid nid inputs) : ∃ p ∈ inputs, b.created_at = p.2 := by
  induction inputs generalizing nid with
  | nil => cases hb
  | cons p rest ih =>
    obtain ⟨m, t⟩ := p
    rcases List.mem_cons.mp hb with rfl | hmem
    · exact ⟨(m, t), List.mem_cons_self _ _, rfl⟩
    · obtain ⟨q, hq, heq⟩ := ih hmem
      exact ⟨q, List.mem_cons_of_mem _ hq, heq⟩

/-- Strictly increasing chat times give strictly increasing row timestamps. -/
theorem pairwise_mkRows (uid : Int) (nid : Nat) {inputs : List (String × Nat)}
    (h : inputs.Pairwise (fun a b => a.2 < b.2)) :
    (mkRows uid nid inputs).Pairwise (fun a b => a.created_at < b.created_at) := by
  induction inputs generalizing nid with
  | nil => simp [mkRows]
  | cons p rest ih =>
    obtain ⟨m, t⟩ := p
    obtain ⟨hhead, htail⟩ := List.pairwise_cons.mp h
    refine List.pairwise_cons.mpr ⟨?_, ih _ htail⟩
    intro b hb
    obtain ⟨q, hq, heq⟩ := mem_mkRows hb
    rw [heq]
    exact hhead q hq

/-- `mkRows` projected to the message view forgets the ids. -/
theorem map_view_mkRows (uid : Int) (nid : Nat) (inputs : List (String × Nat)) :
    (mkRows uid nid inputs).map
        (fun m => (⟨m.message, m.response, m.created_at⟩ : MessageView)) =
      inputs.map viewOfInput := by
  induction inputs generalizing nid with
  | nil => rfl
  | cons p rest ih =>
    obtain ⟨m, t⟩ := p
    simp [mkRows, viewOfInput, ih]

/-- The excerpt of a content string: a prefix, at most 200 characters,
the identity below 201 characters and the 200-character prefix above. -/
theorem excerptOf_spec (c : String) :
    (excerptOf c).data <+: c.data ∧
    (excerptOf c).length ≤ 200 ∧
    (c.length ≤ 200 → excerptOf c = c) ∧
    (200 < c.length → (excerptOf c).data = c.data.take 200) := by
  unfold excerptOf
  split
  · refine ⟨List.take_prefix _ _, ?_, ?_, fun _ => rfl⟩
    · show (c.data.take 200).length ≤ 200
      simp
    · intro hle
      omega
  · refine ⟨List.prefix_refl _, ?_, fun _ => rfl, ?_⟩
    · omega
    · intro hgt
      omega

/-- The pattern `%` alone matches every string. -/
theorem likeAux_percent_nil (s : List Char) : likeAux ['%'] s = true := by
  rw [likeAux]
  apply List.any_eq_true.mpr
  refine ⟨[], ?_, by rw [likeAux]; rfl⟩
  exact (List.mem_tails _ _).mpr List.nil_suffix

/-- The pattern `%%` matches every string. -/
theorem likeAux_percent_percent (s : List Char) : likeAux ['%', '%'] s = true := by
  rw [likeAux]
  apply List.any_eq_true.mpr
  exact ⟨s, (List.mem_tails _ _).mpr (List.suffix_refl s), likeAux_percent_nil s⟩

/-- `LIKE '%%'` (the empty query wrapped in wildcards) accepts any content. -/
theorem sqliteLike_empty_query (c : String) : sqliteLike ("%" ++ "" ++ "%") c = true := by
  have hp : ("%" ++ "" ++ "%" : String).data = ['%', '%'] := rfl
  rw [sqliteLike, hp]
  exact likeAux_percent_percent c.data

/-! ## Claims -/

/-- Claim C1 (counterexample): search is not a case-sensitive substring
match.  User 1's only document has content `"a"`; the query `"A"` occurs as
a case-sensitive substring of none of user 1's documents, yet the SQLite
`LIKE` match is ASCII-case-insensitive and the result list is that document
rather than being empty. -/
theorem search_not_case_sensitive_cex :
    cexDB.documents = [⟨1, 1, "f.txt", "a", 0⟩] ∧
    specSubstring "A" "a" = false ∧
    (search 1 "A" cexDB).results = [⟨"f.txt", "a"⟩] := by
  decide

/-- Claim C1 (amended): for every user_id and query, `POST /api/search`
matches the SQLite pattern `%query%` against document content under default
`LIKE` semantics (ASCII-case-insensitive, with `%` and `_` of the query
acting as wildcards): if exactly one of the user's documents' content
matches, the result list contains exactly that document, and if none
matches, the result list is empty. -/
theorem search_like_semantics (uid : Int) (q : String) (db : DB) (d : DocumentRow) :
    (db.documents.filter
        (fun x => decide (x.user_id = uid) && sqliteLike ("%" ++ q ++ "%") x.content) = [d] →
      (search uid q db).results = [⟨d.filename, excerptOf d.content⟩]) ∧
    (db.documents.filter
        (fun x => decide (x.user_id = uid) && sqliteLike ("%" ++ q ++ "%") x.content) = [] →
      (search uid q db).results = []) := by
  constructor <;> intro h <;> unfold search <;> rw [h] <;> rfl

/-- Witness for C1 (amended): in `docsDB`, the pattern `%world%` matches
exactly user 1's document, and `%zzz%` matches none of user 1's documents. -/
theorem search_like_semantics_witness :
    (docsDB.documents.filter
        (fun x => decide (x.user_id = (1 : Int)) &&
          sqliteLike ("%" ++ "world" ++ "%") x.content) =
      [⟨1, 1, "notes.txt", "hello world", 0⟩]) ∧
    (docsDB.documents.filter
        (fun x => decide (x.user_id = (1 : Int)) &&
          sqliteLike ("%" ++ "zzz" ++ "%") x.content) = []) ∧
    (search 1 "world" docsDB).results = [⟨"notes.txt", "hello world"⟩] ∧
    (search 1 "zzz" docsDB).results = [] :=
  ⟨by decide, by decide,
   (search_like_semantics 1 "world" docsDB ⟨1, 1, "notes.txt", "hello world", 0⟩).1 (by decide),
   (search_like_semantics 1 "zzz" docsDB ⟨1, 1, "notes.txt", "hello world", 0⟩).2 (by decide)⟩

/-- Claim C3: signing up with an email already present in the store returns
the 400 conflict error, carries no token, and leaves the store (in
particular the users table) unchanged. -/
theorem signup_duplicate_email (r : SignupRequest) (now : Nat) (db : DB)
    (h : ∃ u ∈ db.users, u.email = r.email) :
    signup r now db = (.error ⟨400, "Email already exists"⟩, db) := by
  obtain ⟨u, hu, he⟩ := h
  unfold signup
  rw [if_pos]
  exact List.any_eq_true.mpr ⟨u, hu, by simp [he]⟩

/-- Witness for C3: signing up a second account under `alice@x.com` fails
with 400 and leaves `userDB` unchanged. -/
theorem signup_duplicate_email_witness :
    (∃ u ∈ userDB.users, u.email = "alice@x.com") ∧
    signup ⟨"Bob", "alice@x.com", "p2"⟩ 5 userDB =
      (.error ⟨400, "Email already exists"⟩, userDB) :=
  ⟨by decide, signup_duplicate_email ⟨"Bob", "alice@x.com", "p2"⟩ 5 userDB (by decide)⟩

/-- Claim C9: no route reads the caller's `Authorization` header (the
`verify_token` function is not wired into any route), so every endpoint's
response and state change depend only on the declared parameters and the
store — two requests differing only in the caller's token behave
identically. -/
theorem routes_ignore_auth (t1 t2 : Option Token) (r : Request) (now : Nat) (db : DB) :
    apiStep ⟨t1, r⟩ now db = apiStep ⟨t2, r⟩ now db := rfl

/-- Claim C10: searching with the empty query returns every document stored
for the given user (each with its excerpt), because the resulting pattern
`%%` matches every content string. -/
theorem search_empty_query (uid : Int) (db : DB) :
    (search uid "" db).results =
      (db.documents.filter (fun d => decide (d.user_id = uid))).map
        (fun d => ⟨d.filename, excerptOf d.content⟩) := by
  unfold search
  simp only
  congr 1
  apply List.filter_congr
  intro d _
  rw [sqliteLike_empty_query, Bool.and_true]

/-- Claim C2: starting from a store holding no messages for a user, after a
sequence of N chat calls for that user (at strictly increasing wall-clock
times), `GET /api/messages/{user_id}` returns exactly N entries, ordered
from most recently created to least recently created (the reverse of the
creation order). -/
theorem chat_messages_ordering (uid : Int) (inputs : List (String × Nat)) (db : DB)
    (h0 : db.messages.filter (fun m => decide (m.user_id = uid)) = [])
    (hinc : inputs.Pairwise (fun a b => a.2 < b.2)) :
    get_messages uid (chatSeq uid inputs db) = (inputs.map viewOfInput).reverse ∧
    (get_messages uid (chatSeq uid inputs db)).length = inputs.length := by
  have hfil : (chatSeq uid inputs db).messages.filter (fun m => decide (m.user_id = uid)) =
      mkRows uid db.nextMessageId inputs := by
    rw [chatSeq_messages, List.filter_append, h0, filter_mkRows, List.nil_append]
  have hmain : get_messages uid (chatSeq uid inputs db) = (inputs.map viewOfInput).reverse := by
    rw [get_messages, hfil, sortDesc_of_pairwise_lt (pairwise_mkRows uid db.nextMessageId hinc),
      List.map_reverse, map_view_mkRows]
  refine ⟨hmain, ?_⟩
  rw [hmain]
  simp

/-- Witness for C2: two chat calls for user 1 at times 1 and 2 on the empty
store; the listing shows the later message first. -/
theorem chat_messages_ordering_witness :
    initDB.messages.filter (fun m => decide (m.user_id = (1 : Int))) = [] ∧
    ([("hi", 1), ("yo", 2)] : List (String × Nat)).Pairwise (fun a b => a.2 < b.2) ∧
    get_messages 1 (chatSeq 1 [("hi", 1), ("yo", 2)] initDB) =
      (([("hi", 1), ("yo", 2)] : List (String × Nat)).map viewOfInput).reverse :=
  ⟨by decide, by decide,
   (chat_messages_ordering 1 [("hi", 1), ("yo", 2)] initDB (by decide) (by decide)).1⟩

/-- Claim C4: for a stored user (emails being pairwise distinct, as the
UNIQUE constraint guarantees), logging in with that user's email succeeds
with a token exactly when the request password is string-equal to the stored
password; any differing password — including a mere case difference — and
any email with no stored user yield 401 and no token. -/
theorem login_password_check (db : DB) (now : Nat) (e p : String)
    (huniq : db.users.Pairwise (fun a b => a.email ≠ b.email)) :
    ((∀ u ∈ db.users, u.email ≠ e) →
      login ⟨e, p⟩ now db = .error ⟨401, "Invalid email or password"⟩) ∧
    (∀ u ∈ db.users, u.email = e →
      (p = u.password →
        login ⟨e, p⟩ now db =
          .ok ⟨create_token JWT_SECRET e u.id now, "bearer", ⟨u.id, e, u.name⟩⟩) ∧
      (p ≠ u.password →
        login ⟨e, p⟩ now db = .error ⟨401, "Invalid email or password"⟩)) := by
  constructor
  · intro hnone
    unfold login
    rw [List.find?_eq_none.mpr (fun u hu => by simp [hnone u hu])]
  · intro u hu he
    have hfind : db.users.find? (fun v => decide (v.email = e)) = some u := by
      rw [← he]
      exact find?_email_of_mem hu huniq
    constructor
    · intro hp
      unfold login
      rw [hfind]
      dsimp only
      rw [if_neg (fun hne => hne hp.symm)]
    · intro hp
      unfold login
      rw [hfind]
      dsimp only
      rw [if_pos (fun hc => hp hc.symm)]

/-- Witness for C4: on `userDB`, the correct password `"p1"` logs in with a
token, the case-variant `"P1"` and an unknown email both yield 401. -/
theorem login_password_check_witness :
    userDB.users.Pairwise (fun a b => a.email ≠ b.email) ∧
    login ⟨"alice@x.com", "p1"⟩ 3 userDB =
      .ok ⟨create_token JWT_SECRET "alice@x.com" 1 3, "bearer", ⟨1, "alice@x.com", "Alice"⟩⟩ ∧
    login ⟨"alice@x.com", "P1"⟩ 3 userDB = .error ⟨401, "Invalid email or password"⟩ ∧
    login ⟨"bob@x.com", "p1"⟩ 3 userDB = .error ⟨401, "Invalid email or password"⟩ :=
  ⟨by decide,
   ((login_password_check userDB 3 "alice@x.com" "p1" (by decide)).2 aliceRow (by decide)
      (by decide)).1 (by decide),
   ((login_password_check userDB 3 "alice@x.com" "P1" (by decide)).2 aliceRow (by decide)
      (by decide)).2 (by decide),
   (login_password_check userDB 3 "bob@x.com" "p1" (by decide)).1 (by decide)⟩

/-- Claim C5: verifying a freshly issued token with the same secret before
its expiry succeeds and yields exactly the issued email and user id with
expiry equal to issue time plus 7 days; verification fails for a tampered
payload, for a signature made with a different secret, and for an expired
token. -/
theorem token_roundtrip (secret secret' email : String) (uid now nowv : Nat)
    (p' : TokenPayload) :
    (nowv < now + sevenDays →
      verify_token secret nowv (create_token secret email uid now) =
        .ok ⟨email, uid, now + sevenDays⟩) ∧
    (p' ≠ (create_token secret email uid now).payload →
      verify_token secret nowv ⟨p', (create_token secret email uid now).sig⟩ =
        .error ⟨401, "Invalid token"⟩) ∧
    (secret' ≠ secret →
      verify_token secret' nowv (create_token secret email uid now) =
        .error ⟨401, "Invalid token"⟩) ∧
    (now + sevenDays ≤ nowv →
      verify_token secret nowv (create_token secret email uid now) =
        .error ⟨401, "Invalid token"⟩) := by
  refine ⟨fun hlt => ?_, fun hp => ?_, fun hs => ?_, fun hexp => ?_⟩
  · rw [verify_token, if_pos ⟨rfl, hlt⟩]
    rfl
  · rw [verify_token, if_neg]
    intro hc
    exact hp (congrArg Prod.snd hc.1).symm
  · rw [verify_token, if_neg]
    intro hc
    exact hs (congrArg Prod.fst hc.1).symm
  · rw [verify_token, if_neg]
    intro hc
    exact absurd hc.2 (Nat.not_lt.mpr hexp)

/-- Witness for C5: a token issued at time 0 for `("e", 7)` verifies at time
1 to exactly those claims; a tampered payload, the wrong secret, and the
time `sevenDays` all fail. -/
theorem token_roundtrip_witness :
    (1 < 0 + sevenDays ∧
      verify_token "s" 1 (create_token "s" "e" 7 0) = .ok ⟨"e", 7, 0 + sevenDays⟩) ∧
    ((⟨"x", 7, 0 + sevenDays⟩ : TokenPayload) ≠ (create_token "s" "e" 7 0).payload ∧
      verify_token "s" 1 ⟨⟨"x", 7, 0 + sevenDays⟩, (create_token "s" "e" 7 0).sig⟩ =
        .error ⟨401, "Invalid token"⟩) ∧
    (("t" : String) ≠ "s" ∧
      verify_token "t" 1 (create_token "s" "e" 7 0) = .error ⟨401, "Invalid token"⟩) ∧
    (0 + sevenDays ≤ sevenDays ∧
      verify_token "s" sevenDays (create_token "s" "e" 7 0) = .error ⟨401, "Invalid token"⟩) :=
  ⟨⟨by decide, (token_roundtrip "s" "t" "e" 7 0 1 ⟨"x", 7, 0 + sevenDays⟩).1 (by decide)⟩,
   ⟨by decide, (token_roundtrip "s" "t" "e" 7 0 1 ⟨"x", 7, 0 + sevenDays⟩).2.1 (by decide)⟩,
   ⟨by decide, (token_roundtrip "s" "t" "e" 7 0 1 ⟨"x", 7, 0 + sevenDays⟩).2.2.1 (by decide)⟩,
   ⟨by decide,
    (token_roundtrip "s" "t" "e" 7 0 sevenDays ⟨"x", 7, 0 + sevenDays⟩).2.2.2 (by decide)⟩⟩

/-- Claim C6: after uploading a document, listing that user's documents
includes the uploaded one, and every entry of the list is exactly the
`(id, filename, created_at)` projection of a stored row — the content field
never appears in the list view. -/
theorem upload_then_list (uid : Int) (fn content : String) (now : Nat) (db : DB) :
    (⟨db.nextDocumentId, fn, now⟩ : DocView) ∈
      get_documents uid (upload_document uid fn content now db).2 ∧
    ∀ v ∈ get_documents uid (upload_document uid fn content now db).2,
      ∃ d ∈ (upload_document uid fn content now db).2.documents,
        v = ⟨d.id, d.filename, d.created_at⟩ := by
  constructor
  · unfold get_documents upload_document
    dsimp only
    apply List.mem_map.mpr
    refine ⟨⟨db.nextDocumentId, uid, fn, content, now⟩, ?_, rfl⟩
    apply List.mem_filter.mpr
    refine ⟨List.mem_append_right _ (List.mem_singleton_self _), by simp⟩
  · intro v hv
    obtain ⟨d, hd, hveq⟩ := List.mem_map.mp hv
    exact ⟨d, List.mem_of_mem_filter hd, hveq.symm⟩

/-- Witness for C6: uploading `"f"` for user 1 on the empty store; its view
appears in the listing and is a projection of a stored row. -/
theorem upload_then_list_witness :
    (⟨1, "f", 5⟩ : DocView) ∈ get_documents 1 (upload_document 1 "f" "c" 5 initDB).2 ∧
    ((⟨1, "f", 5⟩ : DocView) ∈ get_documents 1 (upload_document 1 "f" "c" 5 initDB).2 →
      ∃ d ∈ (upload_document 1 "f" "c" 5 initDB).2.documents,
        (⟨1, "f", 5⟩ : DocView) = ⟨d.id, d.filename, d.created_at⟩) :=
  ⟨(upload_then_list 1 "f" "c" 5 initDB).1,
   (upload_then_list 1 "f" "c" 5 initDB).2 ⟨1, "f", 5⟩⟩

/-- Claim C7: every search result's excerpt is a prefix of the matched
document's stored content of at most 200 characters: it equals the content
when the content has at most 200 characters and its first 200 characters
otherwise. -/
theorem search_excerpt_shape (uid : Int) (q : String) (db : DB) (r : SearchResult)
    (hr : r ∈ (search uid q db).results) :
    ∃ d ∈ db.documents,
      r.excerpt.data <+: d.content.data ∧
      r.excerpt.length ≤ 200 ∧
      (d.content.length ≤ 200 → r.excerpt = d.content) ∧
      (200 < d.content.length → r.excerpt.data = d.content.data.take 200) := by
  unfold search at hr
  obtain ⟨d, hd, hreq⟩ := List.mem_map.mp hr
  refine ⟨d, List.mem_of_mem_filter hd, ?_⟩
  rw [← hreq]
  exact excerptOf_spec d.content

/-- Witness for C7: the hit of query `"world"` in `docsDB` has an excerpt
that is a short prefix of the stored content. -/
theorem search_excerpt_shape_witness :
    (⟨"notes.txt", "hello world"⟩ : SearchResult) ∈ (search 1 "world" docsDB).results ∧
    ∃ d ∈ docsDB.documents,
      ("hello world" : String).data <+: d.content.data ∧
      ("hello world" : String).length ≤ 200 ∧
      (d.content.length ≤ 200 → ("hello world" : String) = d.content) ∧
      (200 < d.content.length →
        ("hello world" : String).data = d.content.data.take 200) :=
  ⟨by decide, search_excerpt_shape 1 "world" docsDB ⟨"notes.txt", "hello world"⟩ (by decide)⟩

/-- The state reached through the signup route is the state `signup` leaves. -/
theorem apiStep_signup_db (a : Option Token) (s : SignupRequest) (now : Nat) (db : DB) :
    (apiStep ⟨a, .signup s⟩ now db).2 = (signup s now db).2 := by
  rcases hx : signup s now db with ⟨res, db'⟩
  cases res <;> simp [apiStep, hx]

/-- The login route never changes the store. -/
theorem apiStep_login_db (a : Option Token) (l : LoginRequest) (now : Nat) (db : DB) :
    (apiStep ⟨a, .login l⟩ now db).2 = db := by
  cases hx : login l now db <;> simp [apiStep, hx]

/-- Claim C8: every endpoint is append-only — each users, messages and
documents row present before a call is still present, unmodified and in
place afterwards (each old table is a prefix of the new one; no operation
updates or deletes a row). -/
theorem store_append_only (h : HttpRequest) (now : Nat) (db : DB) :
    db.users <+: (apiStep h now db).2.users ∧
    db.messages <+: (apiStep h now db).2.messages ∧
    db.documents <+: (apiStep h now db).2.documents := by
  obtain ⟨a, r⟩ := h
  cases r with
  | root => exact ⟨List.prefix_refl _, List.prefix_refl _, List.prefix_refl _⟩
  | health => exact ⟨List.prefix_refl _, List.prefix_refl _, List.prefix_refl _⟩
  | signup s =>
    rw [apiStep_signup_db]
    obtain ⟨h1, h2, h3⟩ := signup_tables s now db
    exact ⟨h1, by rw [h2], by rw [h3]⟩
  | login l =>
    rw [apiStep_login_db]
    exact ⟨List.prefix_refl _, List.prefix_refl _, List.prefix_refl _⟩
  | chat m =>
    refine ⟨?_, ?_, ?_⟩ <;> simp [apiStep, chat, List.prefix_append]
  | getMessages uid =>
    exact ⟨List.prefix_refl _, List.prefix_refl _, List.prefix_refl _⟩
  | uploadDoc uid fn content =>
    refine ⟨?_, ?_, ?_⟩ <;> simp [apiStep, upload_document, List.prefix_append]
  | getDocs uid =>
    exact ⟨List.prefix_refl _, List.prefix_refl _, List.prefix_refl _⟩
  | search uid q =>
    exact ⟨List.prefix_refl _, List.prefix_refl _, List.prefix_refl _⟩

end DemoApp
